import Mathlib

/-!
Verification of the vmctl native-migration engine (`app/vmctl/vm_native.go`).

The Go source is shallowly embedded: every collaborator call (network export,
import, pipe close, label parsing, time parsing, chunk splitting) is an
explicit parameter holding the outcome that call produced in a given run, and
the concurrent dispatcher is modelled by an explicit schedule of how each
`select` in the producer loop resolved.  Stats mutation is threaded as explicit
state.  Definitions follow the control flow of the Go functions they embed,
with the source line numbers noted in comments.
-/

set_option autoImplicit false

namespace VmNative

/-! ## Label sets and `buildMatchWithFilter` (vm_native.go lines 315-323) -/

/-- A parsed label set, as produced by the external label parser. -/
abbrev Labels := List (String × String)

/-- Modelled from the spec: `promutils.Labels.Set` (lib/promutils is not under
src/) stores the value for the given label name, replacing an existing entry or
appending a new one. -/
def labelsSet (ls : Labels) (name val : String) : Labels :=
  if ls.any fun p => p.1 == name then
    ls.map fun p => if p.1 == name then (p.1, val) else p
  else ls ++ [(name, val)]

/-- Modelled from the spec: `promutils.Labels.String` (lib/promutils is not
under src/) renders a label set as a match expression. -/
def labelsString (ls : Labels) : String :=
  "\x7b" ++ String.intercalate "," (ls.map fun p => p.1 ++ "=\"" ++ p.2 ++ "\"") ++ "\x7d"

/-- Embeds `buildMatchWithFilter` (lines 315-323): parse the base filter string
into labels, set `__name__` to the metric name, render the result.  The
external parser `promutils.NewLabelsFromString` is passed in as `pl`. -/
def buildMatchWithFilter (pl : String → Except String Labels) (filter : String)
    (metricName : String) : Except String String :=
  match pl filter with
  | .error e => .error e
  | .ok labels => .ok (labelsString (labelsSet labels "__name__" metricName))

/-! ## URL construction (lines 34-38 and 152-165) -/

/-- Constant from line 35. -/
def nativeExportAddr : String := "api/v1/export/native"

/-- Constant from line 36. -/
def nativeImportAddr : String := "api/v1/import/native"

/-- Modelled from the spec: `vm.AddExtraLabelsToImportPath` (app/vmctl/vm is
not under src/) appends the configured extra static labels to the import path
as query parameters, failing on a label that is not of the form `name=value`. -/
def AddExtraLabelsToImportPath (path : String) (extraLabels : List String) :
    Except String String :=
  match extraLabels with
  | [] => .ok path
  | ls =>
    if ls.all fun l => l.data.contains '=' then
      .ok (path ++ "?" ++ String.intercalate "&" (ls.map fun l => "extra_label=" ++ l))
    else
      .error "bad format for extra_label flag, it must be `key=value`"

/-- Embeds the URL construction of `runBackfilling` (lines 152-165):
`fmt.Sprintf("%s/%s", ...)` in single-tenant mode, overwritten with the
`/select/.../prometheus/` and `/insert/.../prometheus/` forms when
`interCluster` is set. -/
def backfillURLs (srcAddr dstAddr : String) (extraLabels : List String)
    (interCluster : Bool) (tenantID : String) : Except String (String × String) :=
  match AddExtraLabelsToImportPath nativeImportAddr extraLabels with
  | .error e => .error e
  | .ok importAddr =>
    if interCluster then
      .ok (srcAddr ++ "/select/" ++ tenantID ++ "/prometheus/" ++ nativeExportAddr,
           dstAddr ++ "/insert/" ++ tenantID ++ "/prometheus/" ++ importAddr)
    else
      .ok (srcAddr ++ "/" ++ nativeExportAddr, dstAddr ++ "/" ++ importAddr)

/-! ## Stats (lines 271-277) and `runSingle` (lines 111-150) -/

/-- The three mutable counters of `stats` (lines 271-277); the start time is
kept outside since only the report reads it. -/
structure Stats where
  bytes : Nat
  requests : Nat
  retries : Nat
deriving DecidableEq, Repr

/-- The outcomes of the four collaborator calls one `runSingle` attempt makes:
`src.ExportPipe`, `io.Copy` (bytes copied or the error), the concurrent
`dst.ImportPipe` goroutine, and `pw.Close`. -/
structure ShardOutcome where
  exportErr : Option String
  copyRes : Except String Nat
  importErr : Option String
  closeErr : Option String
deriving Repr

/-- Embeds `runSingle` (lines 111-150).  Returns the updated stats, the list of
messages passed to `logger.Errorf`, and the function's `error` result.  Control
flow mirrors the source: an export-init failure returns first (115); the import
goroutine only logs its error (120-126); a copy failure returns without
touching stats (134-137); on copy success `bytes` and `requests` are updated
(139-142) before `pw.Close` is checked (144-146); the import goroutine's
result is waited for (147) but never read, so the function then returns nil. -/
def runSingle (dstAddr : String) (o : ShardOutcome) (s : Stats) :
    Stats × List String × Except String Unit :=
  match o.exportErr with
  | some e => (s, [], .error ("failed to init export pipe: " ++ e))
  | none =>
    let logs : List String :=
      match o.importErr with
      | some e => ["error initialize import pipe: " ++ e]
      | none => []
    match o.copyRes with
    | .error e => (s, logs, .error ("failed to write into \"" ++ dstAddr ++ "\": " ++ e))
    | .ok written =>
      let s' : Stats := { s with bytes := s.bytes + written, requests := s.requests + 1 }
      match o.closeErr with
      | some e => (s', logs, .error e)
      | none => (s', logs, .ok ())

/-- Decides whether one attempt with outcome `o` makes `runSingle` return nil. -/
def singleOk (o : ShardOutcome) : Bool :=
  o.exportErr.isNone && o.copyRes.toOption.isSome && o.closeErr.isNone

/-- Decides whether the copy phase of an attempt completes (export opened and
`io.Copy` returned without error) — this is the point where stats are updated. -/
def copyDone (o : ShardOutcome) : Bool :=
  o.exportErr.isNone && o.copyRes.toOption.isSome

/-- Bytes reported by `io.Copy` for an attempt whose copy phase completes,
zero otherwise. -/
def copiedBytes (o : ShardOutcome) : Nat :=
  match o.exportErr, o.copyRes with
  | none, .ok n => n
  | _, _ => 0

/-- Folds `runSingle` over a sequence of executed attempt outcomes, tracking
only the stats state: every stats mutation of a run goes through `runSingle`. -/
def runAttempts (dstAddr : String) (l : List ShardOutcome) (s : Stats) : Stats :=
  l.foldl (fun acc o => (runSingle dstAddr o acc).1) s

/-! ## Retry wrapper `do` (lines 97-109) -/

/-- Modelled from the spec: the `backoff.Retry` collaborator (app/vmctl/backoff
is not under src/) "executes fn repeatedly on failure ... until either fn
succeeds [or] a configured maximum attempt count is exhausted" and "returns the
total attempt count (≥1) and the last error if exhaustion occurred".  The
outcome of the i-th executed attempt is `outcomes i`; `fuel` is the remaining
attempt budget and `done` counts attempts already made. -/
def retrySpec (dstAddr : String) (outcomes : Nat → ShardOutcome) :
    Nat → Nat → Stats → Stats × Nat × Option String
  | 0, done, s => (s, done, some "retry budget exhausted before any attempt")
  | fuel + 1, done, s =>
    match runSingle dstAddr (outcomes done) s with
    | (s', _, .ok _) => (s', done + 1, none)
    | (s', _, .error e) =>
      if fuel = 0 then (s', done + 1, some e)
      else retrySpec dstAddr outcomes fuel (done + 1) s'

/-- Embeds `do` (lines 97-109): run the retry collaborator, then add the
returned attempt count to the run-wide `retries` counter (lines 101-103),
then wrap and propagate the error if one remained. -/
def doShard (srcURL dstURL : String) (maxAttempts : Nat)
    (outcomes : Nat → ShardOutcome) (s : Stats) : Stats × Except String Unit :=
  let r := retrySpec dstURL outcomes maxAttempts 0 s
  let s2 : Stats := { r.1 with retries := r.1.retries + r.2.1 }
  match r.2.2 with
  | some e =>
    (s2, .error ("failed to migrate from " ++ srcURL ++ " to " ++ dstURL ++
      " (retry attempts: " ++ toString r.2.1 ++ "): " ++ e))
  | none => (s2, .ok ())

/-! ## The dispatcher of `runBackfilling` (lines 214-266) -/

/-- A time range, carried as the two RFC3339 renderings the producer puts into
the filter (lines 251-252); the `Format` collaborator is thus applied already. -/
abbrev TR := String × String

/-- The `native.Filter` value sent over the work channel (lines 249-253). -/
structure NFilter where
  Match : String
  TimeStart : String
  TimeEnd : String
deriving DecidableEq, Repr

/-- Builds the filter the producer sends for one metric match and range. -/
def mkShardFilter (m : String) (tr : TR) : NFilter :=
  { Match := m, TimeStart := tr.1, TimeEnd := tr.2 }

/-- How one execution of the producer's `select` (lines 244-254) resolved:
the `ctx.Done()` case, the `errCh` receive case, or the send on `filterCh`.
The schedule of resolutions is environment-chosen, covering every
interleaving the Go scheduler could produce. -/
inductive Signal where
  | canceled
  | workerErr (e : String)
  | delivered
deriving DecidableEq, Repr

/-- Why the producer stopped before exhausting the shards. -/
inductive Stop where
  | canceled
  | workerErr (e : String)
deriving DecidableEq, Repr

/-- The stop (if any) that a `select` resolution causes. -/
def stopOf : Signal → Option Stop
  | .canceled => some .canceled
  | .workerErr e => some (.workerErr e)
  | .delivered => none

/-- Observable producer-side events of `runBackfilling`: a shard handed to a
worker (line 249), `close(filterCh)` (258), `wg.Wait()` (259), and
`close(errCh)` (260). -/
inductive Event where
  | sent (f : NFilter)
  | closeWork
  | waitWorkers
  | closeErrCh
deriving DecidableEq, Repr

/-- Embeds the inner range loop (lines 243-255) for one metric whose match
expression is `m`: each iteration runs one `select`, consuming one schedule
entry (an empty schedule means the send case keeps winning).  Returns the
events produced, the unconsumed schedule, and the stop reason if any. -/
def sendRanges (m : String) : List TR → List Signal →
    List Event × List Signal × Option Stop
  | [], sigs => ([], sigs, none)
  | tr :: rest, [] =>
    match sendRanges m rest [] with
    | (evs, sigs', st) => (.sent (mkShardFilter m tr) :: evs, sigs', st)
  | _ :: _, Signal.canceled :: sigs' => ([], sigs', some .canceled)
  | _ :: _, Signal.workerErr e :: sigs' => ([], sigs', some (.workerErr e))
  | tr :: rest, Signal.delivered :: sigs' =>
    match sendRanges m rest sigs' with
    | (evs, sigs'', st) => (.sent (mkShardFilter m tr) :: evs, sigs'', st)

/-- Embeds the outer metric loop (lines 235-256): build the match for each
metric; on failure log and `continue` (238-241), otherwise run the range loop
and stop the whole production on the first stop signal. -/
def sendMetrics (pl : String → Except String Labels) (base : String) :
    List String → List TR → List Signal → List Event × List Signal × Option Stop
  | [], _, sigs => ([], sigs, none)
  | s :: rest, ranges, sigs =>
    match buildMatchWithFilter pl base s with
    | .error _ => sendMetrics pl base rest ranges sigs
    | .ok m =>
      match sendRanges m ranges sigs with
      | (evs, sigs', some st) => (evs, sigs', some st)
      | (evs, sigs', none) =>
        match sendMetrics pl base rest ranges sigs' with
        | (evs', sigs'', st) => (evs ++ evs', sigs'', st)

/-- Embeds lines 235-266 of `runBackfilling`: the producer loop followed by its
exit paths.  On a `ctx.Done()` or `errCh` resolution the Go code returns
immediately (lines 245-248) — so no close/wait events are emitted; only the
exhausted path runs `close(filterCh)`, `wg.Wait()`, `close(errCh)` (258-260)
and then drains `errCh` (262-264), `residual` being the errors workers left
in the buffered channel. -/
def runDispatch (pl : String → Except String Labels) (base : String)
    (metrics : List String) (ranges : List TR) (sigs : List Signal)
    (residual : List String) : List Event × Except String Unit :=
  match sendMetrics pl base metrics ranges sigs with
  | (evs, _, some Stop.canceled) => (evs, .error "context canceled")
  | (evs, _, some (Stop.workerErr e)) => (evs, .error ("native error: " ++ e))
  | (evs, _, none) =>
    let evs2 := evs ++ [Event.closeWork, Event.waitWorkers, Event.closeErrCh]
    match residual with
    | [] => (evs2, .ok ())
    | e :: _ => (evs2, .error ("import process failed: " ++ e))

/-- The shards the producer would send for the given metrics and ranges if
every `select` resolved to the send case: each metric whose match builds
contributes one filter per range, in order (metric outer, range inner). -/
def plannedShards (pl : String → Except String Labels) (base : String) :
    List String → List TR → List NFilter
  | [], _ => []
  | s :: rest, ranges =>
    (match buildMatchWithFilter pl base s with
     | .error _ => []
     | .ok m => ranges.map (mkShardFilter m)) ++ plannedShards pl base rest ranges

/-! ## `runBackfilling` entry (lines 152-212) and `run` (lines 40-95) -/

/-- Collaborator outcomes and configuration consumed by one `runBackfilling`
call. -/
structure BackfillEnv where
  srcAddr : String
  dstAddr : String
  extraLabels : List String
  interCluster : Bool
  silent : Bool
  promptAns : Bool
  baseMatch : String
  parseLabels : String → Except String Labels
  exploreRes : Except String (List String)
  sigs : List Signal
  residual : List String

/-- Embeds `runBackfilling` (lines 152-267): label-augmented import path
(156-159), metric discovery (180-183), the empty-metrics check (185-187), the
interactive confirmation in non-intercluster mode (190-196), then the worker
pool and producer loop (214-266). -/
def runBackfilling (env : BackfillEnv) (tenantID : String) (ranges : List TR) :
    List Event × Except String Unit :=
  match backfillURLs env.srcAddr env.dstAddr env.extraLabels env.interCluster tenantID with
  | .error e => ([], .error ("failed to add labels to import path: " ++ e))
  | .ok _urls =>
    match env.exploreRes with
    | .error e => ([], .error ("cannot get metrics from source " ++ env.srcAddr ++ ": " ++ e))
    | .ok metrics =>
      if metrics.length = 0 then
        ([], .error "no metrics found")
      else if !env.interCluster && !env.silent && !env.promptAns then
        ([], .ok ())
      else
        runDispatch env.parseLabels env.baseMatch metrics ranges env.sigs env.residual

/-- Collaborator outcomes and configuration consumed by `run`: the parse
results for the two time flags (`time.Parse`, external), the chunk-splitting
result (`stepper.SplitDateRange`, external), and tenant discovery.  Parsed
times are carried as their canonical RFC3339 renderings. -/
structure RunEnv where
  timeStart : String
  timeEnd : String
  chunk : String
  parseStart : Except String String
  parseEnd : Except String String
  now : String
  splitRes : Except String (List TR)
  interCluster : Bool
  tenantsRes : Except String (List String)
  silent : Bool
  tenantsPromptAns : Bool

/-- The per-tenant loop of `run` (lines 84-89): first backfilling error aborts
the run wrapped as "migration failed". -/
def runTenants (benvOf : String → BackfillEnv) (ranges : List TR) :
    List String → List Event × Except String Unit
  | [] => ([], .ok ())
  | t :: rest =>
    match runBackfilling (benvOf t) t ranges with
    | (evs, .error e) => (evs, .error ("migration failed: " ++ e))
    | (evs, .ok _) =>
      match runTenants benvOf ranges rest with
      | (evs', r) => (evs ++ evs', r)

/-- Embeds `run` (lines 40-95).  The `cc` default and the stats allocation
(lines 41-46) have no observable effect here; stats counters start at zero and
are only ever mutated by dispatched shards, so the event trace records every
transfer activity.  Start-time parse failure returns first (48-52); the end
time defaults to now when the flag is empty (54-61); chunking is only invoked
for a non-empty chunk spec (63-69); tenants default to `[""]` outside
intercluster mode (71-82). -/
def run (renv : RunEnv) (benvOf : String → BackfillEnv) :
    List Event × Except String Unit :=
  match renv.parseStart with
  | .error e => ([], .error ("failed to parse vm-native-filter-time-start: " ++ e))
  | .ok start =>
    match (if renv.timeEnd = "" then .ok renv.now else renv.parseEnd :
        Except String String) with
    | .error e => ([], .error ("failed to parse vm-native-filter-time-end: " ++ e))
    | .ok endT =>
      match (if renv.chunk = "" then .ok [(start, endT)] else renv.splitRes :
          Except String (List TR)) with
      | .error e => ([], .error ("failed to create date ranges for the given time filters: " ++ e))
      | .ok ranges =>
        match (if renv.interCluster then renv.tenantsRes else .ok [""] :
            Except String (List String)) with
        | .error e => ([], .error ("failed to get tenants: " ++ e))
        | .ok tenants =>
          if renv.interCluster && !renv.silent && !renv.tenantsPromptAns then
            ([], .ok ())
          else
            runTenants benvOf ranges tenants

/-- Boolean error test for `Except` results. -/
def exceptErr {ε α : Type} : Except ε α → Bool
  | .error _ => true
  | .ok _ => false

/-! ## Stats report (lines 279-299) -/

/-- Embeds the rate computation of `stats.String` (lines 283-288): the rate
shown is zero unless both the byte counter and the elapsed seconds are
positive, in which case it is bytes divided by elapsed seconds.  Go's float64
arithmetic is modelled by exact rationals; the elapsed wall time is a
parameter. -/
def statsRate (bytes : Nat) (elapsedS : ℚ) : ℚ :=
  if 0 < bytes ∧ 0 < elapsedS then (bytes : ℚ) / elapsedS else 0

/-! ## Concrete collaborator outcomes used by counterexamples and witnesses -/

/-- Attempt outcomes where the first attempt fails transiently in the copy
phase and the second succeeds with 3 bytes. -/
def c3Outcomes : Nat → ShardOutcome := fun i =>
  if i = 0 then
    { exportErr := none, copyRes := .error "transient", importErr := none, closeErr := none }
  else
    { exportErr := none, copyRes := .ok 3, importErr := none, closeErr := none }

/-- An attempt that copies 7 bytes and then fails closing the pipe write end. -/
def c4Outcome : ShardOutcome :=
  { exportErr := none, copyRes := .ok 7, importErr := none, closeErr := some "close failed" }

/-- A label parser that accepts every base filter, producing one label. -/
def plOk : String → Except String Labels := fun _ => .ok [("job", "test")]

/-- A backfilling environment whose metric discovery finds no metrics. -/
def benvNoMetrics : BackfillEnv :=
  { srcAddr := "S", dstAddr := "D", extraLabels := [], interCluster := false,
    silent := true, promptAns := true, baseMatch := "b", parseLabels := plOk,
    exploreRes := .ok [], sigs := [], residual := [] }

/-- A run environment whose start-time flag fails to parse. -/
def renvBadStart : RunEnv :=
  { timeStart := "garbage", timeEnd := "", chunk := "",
    parseStart := .error "cannot parse", parseEnd := .ok "x", now := "now",
    splitRes := .ok [], interCluster := false, tenantsRes := .ok [""],
    silent := true, tenantsPromptAns := true }

/-! # Theorems -/

/-! ## Helper lemmas about `runSingle` -/

/-- Stats effect of one attempt: counters move exactly when the copy phase
completes, regardless of the close or import results. -/
theorem runSingle_stats (d : String) (o : ShardOutcome) (s : Stats) :
    (runSingle d o s).1 =
      if copyDone o then
        { s with bytes := s.bytes + copiedBytes o, requests := s.requests + 1 }
      else s := by
  rcases o with ⟨oe, cr, ie, ce⟩
  cases oe <;> cases cr <;> cases ce <;>
    simp [runSingle, copyDone, copiedBytes, Except.toOption]

/-- The error result of one attempt is nil exactly when `singleOk` holds. -/
theorem runSingle_result_ok (d : String) (o : ShardOutcome) (s : Stats) :
    (runSingle d o s).2.2 = .ok () ↔ singleOk o = true := by
  rcases o with ⟨oe, cr, ie, ce⟩
  cases oe <;> cases cr <;> cases ce <;>
    simp [runSingle, singleOk, Except.toOption]

/-- One attempt never touches the retries counter. -/
theorem runSingle_retries (d : String) (o : ShardOutcome) (s : Stats) :
    (runSingle d o s).1.retries = s.retries := by
  rcases o with ⟨oe, cr, ie, ce⟩
  cases oe <;> cases cr <;> cases ce <;> simp [runSingle]

/-- When the copy phase does not complete no bytes are recorded. -/
theorem copiedBytes_of_not_copyDone (o : ShardOutcome) (h : copyDone o = false) :
    copiedBytes o = 0 := by
  rcases o with ⟨oe, cr, ie, ce⟩
  cases oe <;> cases cr <;> simp_all [copyDone, copiedBytes, Except.toOption]

/-! ## C2 -/

/-- C2: the claim that `runSingle` fails whenever the destination import side
fails is refuted by the code: with the export pipe opened, 5 bytes copied and
the pipe closed cleanly, an import-side failure is only logged
(`logger.Errorf`, lines 122-125) and the attempt returns nil — a success —
while also counting the attempt in `bytes` and `requests`. -/
theorem C2_import_failure_returns_success :
    runSingle "http://dst:8428" ⟨none, .ok 5, some "import side failed", none⟩ ⟨0, 0, 0⟩ =
      (⟨5, 1, 0⟩, ["error initialize import pipe: import side failed"], .ok ()) := rfl

/-! ## C4 -/

/-- C4 counterexample: a transfer attempt that copies 7 bytes and then fails on
`pw.Close` (line 144-146) returns an error — zero shard transfers completed
successfully — and yet the `requests` counter reads 1 and `bytes` reads 7,
because the code increments both (lines 139-142) before checking the close. -/
theorem C4_counterexample :
    exceptErr (runSingle "d" c4Outcome ⟨0, 0, 0⟩).2.2 = true ∧
    (runSingle "d" c4Outcome ⟨0, 0, 0⟩).1.requests = 1 ∧
    (runSingle "d" c4Outcome ⟨0, 0, 0⟩).1.bytes = 7 :=
  ⟨rfl, rfl, rfl⟩

/-- C4 amended: after any sequence of executed transfer attempts, the `bytes`
counter equals its initial value plus the bytes copied by every attempt whose
copy phase completed, and `requests` counts exactly the attempts whose copy
phase completed — including attempts that subsequently fail on the pipe close
or on the import side. -/
theorem C4_stats_count_copy_completed_attempts (d : String) (l : List ShardOutcome)
    (s : Stats) :
    (runAttempts d l s).bytes = s.bytes + (l.map copiedBytes).sum ∧
    (runAttempts d l s).requests = s.requests + l.countP copyDone := by
  induction l generalizing s with
  | nil => simp [runAttempts]
  | cons o t ih =>
    obtain ⟨hb, hr⟩ := ih ((runSingle d o s).1)
    have hs := runSingle_stats d o s
    constructor
    · show (runAttempts d t ((runSingle d o s).1)).bytes = _
      rw [hb, hs]
      by_cases hc : copyDone o = true
      · simp [hc, List.sum_cons]
        omega
      · have h0 := copiedBytes_of_not_copyDone o (by simpa using hc)
        simp [hc, List.sum_cons, h0]
    · show (runAttempts d t ((runSingle d o s).1)).requests = _
      rw [hr, hs, List.countP_cons]
      by_cases hc : copyDone o = true
      · simp [hc]
        omega
      · simp [hc]

/-! ## C3 -/

/-- C3 counterexample: a shard whose first attempt fails transiently and whose
second attempt succeeds (`k = 2`) is reported as a success, but the run-wide
retries counter increases by 2 — the total attempt count added at line 102 —
not by `k - 1 = 1` as the claim states. -/
theorem C3_counterexample :
    (doShard "s" "d" 5 c3Outcomes ⟨0, 0, 0⟩).2 = .ok () ∧
    (doShard "s" "d" 5 c3Outcomes ⟨0, 0, 0⟩).1.retries = 2 :=
  ⟨rfl, rfl⟩

/-- On success at attempt index `done + j` after `j` failures, the retry
collaborator returns the stats of the executed attempts and the total attempt
count `j + 1`, never touching the retries counter itself. -/
theorem retrySpec_success (d : String) (out : Nat → ShardOutcome) :
    ∀ (j fuel done : Nat) (s : Stats),
      (∀ i, i < j → singleOk (out (done + i)) = false) →
      singleOk (out (done + j)) = true →
      j < fuel →
      ∃ s', retrySpec d out fuel done s = (s', done + j + 1, none) ∧
        s'.retries = s.retries := by
  intro j
  induction j with
  | zero =>
    intro fuel done s _ hok hfuel
    obtain ⟨f, rfl⟩ : ∃ f, fuel = f + 1 := ⟨fuel - 1, by omega⟩
    rcases hr : runSingle d (out done) s with ⟨s', logs, res⟩
    have hres : res = .ok () := by
      have := (runSingle_result_ok d (out done) s).mpr (by simpa using hok)
      rw [hr] at this
      exact this
    subst hres
    refine ⟨s', ?_, ?_⟩
    · simp [retrySpec, hr]
    · have := runSingle_retries d (out done) s
      rw [hr] at this
      exact this
  | succ j ih =>
    intro fuel done s hfail hok hfuel
    obtain ⟨f, rfl⟩ : ∃ f, fuel = f + 1 := ⟨fuel - 1, by omega⟩
    rcases hr : runSingle d (out done) s with ⟨s', logs, res⟩
    have h0 : singleOk (out done) = false := by
      have := hfail 0 (by omega)
      simpa using this
    have hres : res ≠ .ok () := by
      intro hcon
      have := (runSingle_result_ok d (out done) s).mp (by rw [hr]; exact hcon)
      rw [h0] at this
      exact Bool.noConfusion this
    cases res with
    | ok u =>
      cases u
      exact absurd rfl hres
    | error e =>
      have hf0 : ¬ f = 0 := by omega
      obtain ⟨s'', hs'', hret⟩ := ih f (done + 1) s'
        (fun i hi => by
          have := hfail (i + 1) (by omega)
          have hidx : done + (i + 1) = done + 1 + i := by omega
          rwa [hidx] at this)
        (by
          have hidx : done + (j + 1) = done + 1 + j := by omega
          rwa [hidx] at hok)
        (by omega)
      refine ⟨s'', ?_, ?_⟩
      · have hidx : done + 1 + j + 1 = done + (j + 1) + 1 := by omega
        rw [hidx] at hs''
        simp [retrySpec, hr, hf0, hs'']
      · have := runSingle_retries d (out done) s
        rw [hr] at this
        rw [hret, this]

/-- C3 amended: a shard whose first `k - 1` attempts fail transiently and whose
`k`-th attempt succeeds (with `1 ≤ k` within the attempt budget) is reported as
an overall success, and the run-wide retry counter increases by exactly `k` —
the total attempt count the retry collaborator returns — not by `k - 1`. -/
theorem C3_retry_success_adds_total_attempts (srcURL dstURL : String)
    (maxAttempts k : Nat) (out : Nat → ShardOutcome) (s : Stats)
    (hk : 1 ≤ k) (hmax : k ≤ maxAttempts)
    (hfail : ∀ i, i < k - 1 → singleOk (out i) = false)
    (hok : singleOk (out (k - 1)) = true) :
    (doShard srcURL dstURL maxAttempts out s).2 = .ok () ∧
    (doShard srcURL dstURL maxAttempts out s).1.retries = s.retries + k := by
  obtain ⟨s', hs', hret⟩ := retrySpec_success dstURL out (k - 1) maxAttempts 0 s
    (fun i hi => by simpa using hfail i hi)
    (by simpa using hok)
    (by omega)
  have hs2 : retrySpec dstURL out maxAttempts 0 s = (s', k, none) := by
    rw [hs']
    have hk1 : 0 + (k - 1) + 1 = k := by omega
    rw [hk1]
  constructor
  · simp [doShard, hs2]
  · simp [doShard, hs2, hret]

/-- C3 witness: the amended statement at `k = 2` with the concrete outcomes of
`c3Outcomes` and the zero initial stats. -/
theorem C3_retry_success_witness :
    (doShard "s" "d" 5 c3Outcomes ⟨0, 0, 0⟩).2 = .ok () ∧
    (doShard "s" "d" 5 c3Outcomes ⟨0, 0, 0⟩).1.retries = 0 + 2 :=
  C3_retry_success_adds_total_attempts "s" "d" 5 2 c3Outcomes ⟨0, 0, 0⟩
    (by omega) (by omega)
    (by decide)
    (by decide)

/-! ## C9 -/

/-- C9: rendering the stats report derives the rate as bytes divided by the
elapsed seconds, and the guard at line 286 makes the reported rate zero — not
an error or a division by zero — whenever the elapsed time is zero or the byte
counter is zero. -/
theorem C9_rate_zero_guard (b : Nat) (e : ℚ) :
    statsRate b 0 = 0 ∧ statsRate 0 e = 0 ∧
    (0 < b → 0 < e → statsRate b e = (b : ℚ) / e) := by
  refine ⟨?_, ?_, ?_⟩
  · simp [statsRate]
  · simp [statsRate]
  · intro hb he
    simp [statsRate, hb, he]

/-- C9 witness: concrete rates — zero elapsed time and zero bytes give rate
zero, six bytes over two seconds give rate 6/2. -/
theorem C9_rate_zero_guard_witness :
    statsRate 3 0 = 0 ∧ statsRate 0 5 = 0 ∧ statsRate 6 2 = (6 : ℚ) / 2 :=
  ⟨(C9_rate_zero_guard 3 0).1, (C9_rate_zero_guard 0 5).2.1,
   (C9_rate_zero_guard 6 2).2.2 (by norm_num) (by norm_num)⟩

/-! ## C8 -/

/-- C8: for every run, the export URL is the source address followed by
`/api/v1/export/native` and the import URL is the destination address followed
by `/` and the (possibly extra-label-augmented) import path in single-tenant
mode, and the `/select/{tenant}/prometheus/` and `/insert/{tenant}/prometheus/`
forms in intercluster mode; the augmented import path is always
`api/v1/import/native` followed by a query suffix, empty when no extra labels
are configured. -/
theorem C8_export_import_urls (src dst t : String) (ls : List String) (ia : String)
    (h : AddExtraLabelsToImportPath nativeImportAddr ls = .ok ia) :
    backfillURLs src dst ls false t =
      .ok (src ++ "/" ++ "api/v1/export/native", dst ++ "/" ++ ia) ∧
    backfillURLs src dst ls true t =
      .ok (src ++ "/select/" ++ t ++ "/prometheus/" ++ "api/v1/export/native",
           dst ++ "/insert/" ++ t ++ "/prometheus/" ++ ia) ∧
    ∃ q, ia = "api/v1/import/native" ++ q ∧ (ls = [] → q = "") := by
  refine ⟨?_, ?_, ?_⟩
  · simp [backfillURLs, h, nativeExportAddr]
  · simp [backfillURLs, h, nativeExportAddr]
  · cases ls with
    | nil =>
      simp only [AddExtraLabelsToImportPath] at h
      have hia : ia = nativeImportAddr := by
        cases h
        rfl
      refine ⟨"", ?_, fun _ => rfl⟩
      rw [hia, nativeImportAddr, String.append_empty]
    | cons l0 rest =>
      simp only [AddExtraLabelsToImportPath] at h
      split at h
      · cases h
        refine ⟨"?" ++ String.intercalate "&" ((l0 :: rest).map fun l => "extra_label=" ++ l),
          ?_, by simp⟩
        rw [String.append_assoc]
        rfl
      · exact absurd h (by simp)

/-- C8 witness: concrete URLs for source `S`, destination `D`, tenant `T` and
one extra label. -/
theorem C8_export_import_urls_witness :
    backfillURLs "S" "D" ["foo=bar"] false "T" =
      .ok ("S" ++ "/" ++ "api/v1/export/native",
           "D" ++ "/" ++ "api/v1/import/native?extra_label=foo=bar") ∧
    backfillURLs "S" "D" ["foo=bar"] true "T" =
      .ok ("S" ++ "/select/" ++ "T" ++ "/prometheus/" ++ "api/v1/export/native",
           "D" ++ "/insert/" ++ "T" ++ "/prometheus/" ++ "api/v1/import/native?extra_label=foo=bar") ∧
    ∃ q, "api/v1/import/native?extra_label=foo=bar" = "api/v1/import/native" ++ q ∧
      ((["foo=bar"] : List String) = [] → q = "") :=
  C8_export_import_urls "S" "D" "T" ["foo=bar"] "api/v1/import/native?extra_label=foo=bar" rfl

/-! ## C6 -/

/-- C6: whenever metric discovery for a tenant returns the empty set, the
backfilling run for that tenant fails with the distinct "no metrics found"
error (line 186) and its event trace is empty — in particular no shard is ever
sent to any worker, the worker pool not even being started. -/
theorem C6_empty_metrics_no_dispatch (env : BackfillEnv) (tenantID : String)
    (ranges : List TR) (ia : String × String)
    (hurls : backfillURLs env.srcAddr env.dstAddr env.extraLabels env.interCluster tenantID = .ok ia)
    (hexp : env.exploreRes = .ok []) :
    runBackfilling env tenantID ranges = ([], .error "no metrics found") := by
  simp [runBackfilling, hurls, hexp]

/-- C6 witness: a concrete environment whose metric discovery returns the
empty list. -/
theorem C6_empty_metrics_no_dispatch_witness :
    runBackfilling benvNoMetrics "" [("t0", "t1")] = ([], .error "no metrics found") :=
  C6_empty_metrics_no_dispatch benvNoMetrics "" [("t0", "t1")]
    ("S" ++ "/" ++ nativeExportAddr, "D" ++ "/" ++ nativeImportAddr) rfl rfl

/-! ## C7 -/

/-- C7: whenever the start time fails to parse, or an end time is configured
and fails to parse, or a chunk spec is configured and the range splitter
rejects it, `run` returns an error with an empty event trace: no shard is ever
sent to a worker, hence no transfer is attempted and no stats counter beyond
the start time is ever touched (all counter mutations happen inside dispatched
transfers). -/
theorem C7_config_error_no_transfer (renv : RunEnv) (benvOf : String → BackfillEnv)
    (h : exceptErr renv.parseStart = true ∨
         (renv.timeEnd ≠ "" ∧ exceptErr renv.parseEnd = true) ∨
         (renv.chunk ≠ "" ∧ exceptErr renv.splitRes = true)) :
    (run renv benvOf).1 = [] ∧ exceptErr (run renv benvOf).2 = true := by
  rcases h with h1 | ⟨h2a, h2b⟩ | ⟨h3a, h3b⟩
  · rcases hs : renv.parseStart with e | v
    · simp [run, hs, exceptErr]
    · rw [hs] at h1
      simp [exceptErr] at h1
  · rcases hs : renv.parseStart with e | v
    · simp [run, hs, exceptErr]
    · rcases he : renv.parseEnd with e' | v'
      · simp [run, hs, he, h2a, exceptErr]
      · rw [he] at h2b
        simp [exceptErr] at h2b
  · rcases hs : renv.parseStart with e | v
    · simp [run, hs, exceptErr]
    · rcases he : (if renv.timeEnd = "" then (.ok renv.now : Except String String)
          else renv.parseEnd) with e' | v'
      · simp [run, hs, he, exceptErr]
      · rcases hc : renv.splitRes with e'' | v''
        · simp [run, hs, he, hc, h3a, exceptErr]
        · rw [hc] at h3b
          simp [exceptErr] at h3b

/-- C7 witness: a concrete configuration whose start time is malformed. -/
theorem C7_config_error_no_transfer_witness :
    (run renvBadStart (fun _ => benvNoMetrics)).1 = [] ∧
    exceptErr (run renvBadStart (fun _ => benvNoMetrics)).2 = true :=
  C7_config_error_no_transfer renvBadStart (fun _ => benvNoMetrics) (Or.inl rfl)

/-! ## C10 -/

/-- C10: when the base filter cannot be parsed as labels, building the match
expression fails for every metric (the parse result does not depend on the
metric name), each metric is skipped by the `continue` at line 240 with the
error only logged, no shard of any skipped metric is dispatched, and the run
proceeds to a normal shutdown reporting overall success when the workers left
no error behind. -/
theorem C10_bad_base_filter_skips_and_succeeds (pl : String → Except String Labels)
    (base : String) (em : String) (metrics : List String) (ranges : List TR)
    (sigs : List Signal) (hpl : pl base = .error em) :
    runDispatch pl base metrics ranges sigs [] =
      ([Event.closeWork, Event.waitWorkers, Event.closeErrCh], .ok ()) := by
  have hsend : sendMetrics pl base metrics ranges sigs = ([], sigs, none) := by
    induction metrics with
    | nil => simp [sendMetrics]
    | cons s rest ih => simp [sendMetrics, buildMatchWithFilter, hpl, ih]
  simp [runDispatch, hsend]

/-! ## C5 -/

/-- When the schedule starts with at least as many send resolutions as there
are ranges, the range loop sends every range and passes the surplus schedule
on unconsumed. -/
theorem sendRanges_deliver_all (m : String) :
    ∀ (trs : List TR) (n : Nat) (l : List Signal), trs.length ≤ n →
      sendRanges m trs (List.replicate n Signal.delivered ++ l) =
        (trs.map fun tr => Event.sent (mkShardFilter m tr),
         List.replicate (n - trs.length) Signal.delivered ++ l, none) := by
  intro trs
  induction trs with
  | nil =>
    intro n l _
    simp [sendRanges]
  | cons tr rest ih =>
    intro n l hn
    simp only [List.length_cons] at hn
    obtain ⟨n', rfl⟩ : ∃ n', n = n' + 1 := ⟨n - 1, by omega⟩
    simp only [List.replicate_succ, List.cons_append, sendRanges, List.append_eq]
    rw [ih n' l (by omega)]
    simp [Nat.succ_sub_succ]

/-- When the schedule delivers `n` sends and then resolves to cancellation or
a worker error while ranges remain, the range loop sends exactly the first `n`
ranges, consumes the stop resolution and halts with the stop reason. -/
theorem sendRanges_stop (m : String) (sg : Signal) (st : Stop)
    (hsg : stopOf sg = some st) :
    ∀ (n : Nat) (trs : List TR) (l : List Signal), n < trs.length →
      sendRanges m trs (List.replicate n Signal.delivered ++ sg :: l) =
        ((trs.take n).map fun tr => Event.sent (mkShardFilter m tr), l, some st) := by
  intro n
  induction n with
  | zero =>
    intro trs l hn
    obtain ⟨tr, rest, rfl⟩ : ∃ tr rest, trs = tr :: rest := by
      cases trs with
      | nil => simp at hn
      | cons a b => exact ⟨a, b, rfl⟩
    cases sg with
    | canceled =>
      simp only [stopOf, Option.some.injEq] at hsg
      cases hsg
      simp [sendRanges]
    | workerErr e =>
      simp only [stopOf, Option.some.injEq] at hsg
      cases hsg
      simp [sendRanges]
    | delivered => simp [stopOf] at hsg
  | succ n ih =>
    intro trs l hn
    obtain ⟨tr, rest, rfl⟩ : ∃ tr rest, trs = tr :: rest := by
      cases trs with
      | nil => simp at hn
      | cons a b => exact ⟨a, b, rfl⟩
    simp only [List.length_cons] at hn
    simp only [List.replicate_succ, List.cons_append, sendRanges, List.append_eq]
    rw [ih rest l (by omega)]
    simp [List.take_succ_cons]

/-- When the schedule delivers `n` sends and then resolves to a stop while
planned shards remain, the producer loop sends exactly the first `n` planned
shards and halts with the stop reason. -/
theorem sendMetrics_stop (pl : String → Except String Labels) (base : String)
    (rs : List TR) (sg : Signal) (st : Stop) (hsg : stopOf sg = some st) :
    ∀ (ms : List String) (n : Nat) (l : List Signal),
      n < (plannedShards pl base ms rs).length →
      sendMetrics pl base ms rs (List.replicate n Signal.delivered ++ sg :: l) =
        (((plannedShards pl base ms rs).take n).map Event.sent, l, some st) := by
  intro ms
  induction ms with
  | nil =>
    intro n l hn
    simp [plannedShards] at hn
  | cons s rest ih =>
    intro n l hn
    cases hbm : buildMatchWithFilter pl base s with
    | error e =>
      have hplan : plannedShards pl base (s :: rest) rs = plannedShards pl base rest rs := by
        simp [plannedShards, hbm]
      rw [hplan] at hn
      simp only [sendMetrics, hbm, hplan]
      exact ih n l hn
    | ok m =>
      have hplan : plannedShards pl base (s :: rest) rs =
          rs.map (mkShardFilter m) ++ plannedShards pl base rest rs := by
        simp [plannedShards, hbm]
      by_cases hcase : n < rs.length
      · have hsr := sendRanges_stop m sg st hsg n rs l hcase
        simp only [sendMetrics, hbm, hsr]
        have h0 : n - rs.length = 0 := by omega
        rw [hplan, List.take_append_eq_append_take, List.length_map, h0,
          List.take_zero, List.append_nil, ← List.map_take, List.map_map]
        rfl
      · have hge : rs.length ≤ n := by omega
        have hsplit : List.replicate n Signal.delivered ++ sg :: l =
            List.replicate rs.length Signal.delivered ++
              (List.replicate (n - rs.length) Signal.delivered ++ sg :: l) := by
          rw [← List.append_assoc, ← List.replicate_add]
          congr 2
          omega
        have hsr := sendRanges_deliver_all m rs rs.length
          (List.replicate (n - rs.length) Signal.delivered ++ sg :: l) (le_refl rs.length)
        rw [Nat.sub_self, List.replicate_zero, List.nil_append] at hsr
        have hrest := ih (n - rs.length) l (by
          rw [hplan, List.length_append, List.length_map] at hn
          omega)
        simp only [sendMetrics, hbm, hsplit, hsr, hrest]
        rw [hplan, List.take_append_eq_append_take, List.length_map,
          @List.take_of_length_le _ n (List.map (mkShardFilter m) rs)
            (by rw [List.length_map]; exact hge),
          List.map_append, List.map_map]
        rfl

/-- C5: once the producer's `select` resolves to a worker error or to
cancellation, no further shard is ever sent: for every schedule that delivers
`n` shards and then observes the failure (with shards still remaining), the
producer has sent exactly the first `n` planned shards — none after the
observation — and returns the corresponding error.  Already-dispatched shards
are not modelled further: the code does nothing to interrupt them. -/
theorem C5_failfast_no_shard_after_failure (pl : String → Except String Labels)
    (base : String) (metrics : List String) (ranges : List TR) (n : Nat)
    (e : String) (resid : List String)
    (hn : n < (plannedShards pl base metrics ranges).length) :
    runDispatch pl base metrics ranges
        (List.replicate n Signal.delivered ++ [Signal.workerErr e]) resid =
      (((plannedShards pl base metrics ranges).take n).map Event.sent,
       .error ("native error: " ++ e)) ∧
    runDispatch pl base metrics ranges
        (List.replicate n Signal.delivered ++ [Signal.canceled]) resid =
      (((plannedShards pl base metrics ranges).take n).map Event.sent,
       .error "context canceled") := by
  constructor
  · have h := sendMetrics_stop pl base ranges (Signal.workerErr e) (Stop.workerErr e)
      rfl metrics n [] hn
    simp [runDispatch, h]
  · have h := sendMetrics_stop pl base ranges Signal.canceled Stop.canceled
      rfl metrics n [] hn
    simp [runDispatch, h]

/-- C5 witness: two metrics over one range (two planned shards); after one
delivered shard the producer observes a worker error (resp. cancellation) and
sends nothing further. -/
theorem C5_failfast_no_shard_after_failure_witness :
    runDispatch plOk "b" ["m1", "m2"] [("t0", "t1")]
        (List.replicate 1 Signal.delivered ++ [Signal.workerErr "boom"]) [] =
      (((plannedShards plOk "b" ["m1", "m2"] [("t0", "t1")]).take 1).map Event.sent,
       .error ("native error: " ++ "boom")) ∧
    runDispatch plOk "b" ["m1", "m2"] [("t0", "t1")]
        (List.replicate 1 Signal.delivered ++ [Signal.canceled]) [] =
      (((plannedShards plOk "b" ["m1", "m2"] [("t0", "t1")]).take 1).map Event.sent,
       .error "context canceled") :=
  C5_failfast_no_shard_after_failure plOk "b" ["m1", "m2"] [("t0", "t1")] 1 "boom" []
    (by decide)

/-! ## C1 -/

/-- C1: the claim that the producer always closes the work channel and joins
the workers is refuted by the code: when the first `select` resolves to a
pending worker error, `runBackfilling` returns at line 248 — and on observed
cancellation at line 246 — without ever reaching `close(filterCh)` (258) or
`wg.Wait()` (259): the trace of both early-return paths is empty, containing
neither the close nor the join event, while the exhausted path does perform
both (last two conjuncts). -/
theorem C1_early_return_skips_close_and_join :
    runDispatch plOk "b" ["m1", "m2"] [("t0", "t1")] [Signal.workerErr "boom"] [] =
      ([], .error ("native error: " ++ "boom")) ∧
    runDispatch plOk "b" ["m1", "m2"] [("t0", "t1")] [Signal.canceled] [] =
      ([], .error "context canceled") ∧
    Event.closeWork ∈ (runDispatch plOk "b" ["m1", "m2"] [("t0", "t1")] [] []).1 ∧
    Event.waitWorkers ∈ (runDispatch plOk "b" ["m1", "m2"] [("t0", "t1")] [] []).1 := by
  refine ⟨rfl, rfl, ?_, ?_⟩ <;> decide

/-- C10 witness: a concrete dispatch whose base filter never parses: both
metrics are skipped and the run reports success with no shard sent. -/
theorem C10_bad_base_filter_witness :
    runDispatch (fun _ => .error "cannot parse base filter") "\x7bbad" ["m1", "m2"]
      [("t0", "t1")] [] [] =
      ([Event.closeWork, Event.waitWorkers, Event.closeErrCh], .ok ()) :=
  C10_bad_base_filter_skips_and_succeeds _ "\x7bbad" "cannot parse base filter"
    ["m1", "m2"] [("t0", "t1")] [] rfl

end VmNative
